import Mathlib

/-!
Shallow embedding of the cricket-betting reward calculators.

`post-reward-calculator.py` distributes a budget across users in proportion
to a combined similarity score times their stake; `pre-reward-calculator.py`
estimates a payout multiplier for a single bet from a player's historical
statistics.  Python dicts of numeric statistics are modelled as a finite key
set together with a valuation function; floats are modelled as real numbers.
-/

open scoped Classical

/-- A Python dict with string keys: a finite set of keys and a valuation.
The valuation is only meaningful on `keys`. -/
structure Dict (α : Type) where
  keys : Finset String
  val : String → α

/-- `d.get k` models Python's `d.get(k, 0)`. -/
noncomputable def Dict.get (d : Dict ℝ) (k : String) : ℝ :=
  if k ∈ d.keys then d.val k else 0

/-- A StatVector: a sparse mapping from statistic names to numbers. -/
abbrev StatVec := Dict ℝ

/-- Python `==` on two dicts of numbers: same keys and same values on them. -/
def DictEq (a b : StatVec) : Prop :=
  a.keys = b.keys ∧ ∀ k ∈ a.keys, a.val k = b.val k

/-- The weights dict read at keys Euclidean/Manhattan/Minkowski/Cosine. -/
structure WeightSet where
  Euclidean : ℝ
  Manhattan : ℝ
  Minkowski : ℝ
  Cosine : ℝ

/-- `calculate_euclidean_distance` (post, lines 4-7): sqrt of the sum, over
the prediction's keys, of squared differences with `actual.get(key, 0)`. -/
noncomputable def calculate_euclidean_distance (prediction actual : StatVec) : ℝ :=
  Real.sqrt (∑ k ∈ prediction.keys, (prediction.val k - actual.get k) ^ 2)

/-- `calculate_manhattan_distance` (post, lines 9-11). -/
noncomputable def calculate_manhattan_distance (prediction actual : StatVec) : ℝ :=
  ∑ k ∈ prediction.keys, |prediction.val k - actual.get k|

/-- `calculate_minkowski_distance` (post, lines 13-15); `**` on floats is
modelled by `Real.rpow`. -/
noncomputable def calculate_minkowski_distance (prediction actual : StatVec) (p : ℝ) : ℝ :=
  Real.rpow (∑ k ∈ prediction.keys, Real.rpow |prediction.val k - actual.get k| p) (1 / p)

/-- `calculate_cosine_similarity` (post, lines 17-30): short-circuits to 1.0
on equal mappings, otherwise dot product over the union of keys divided by
the product of magnitudes plus epsilon = 1e-9. -/
noncomputable def calculate_cosine_similarity (prediction actual : StatVec) : ℝ :=
  if DictEq prediction actual then 1
  else
    let allKeys := prediction.keys ∪ actual.keys
    let dotProduct := ∑ k ∈ allKeys, prediction.get k * actual.get k
    let magnitudePred := Real.sqrt (∑ k ∈ allKeys, prediction.get k ^ 2)
    let magnitudeActual := Real.sqrt (∑ k ∈ allKeys, actual.get k ^ 2)
    dotProduct / (magnitudePred * magnitudeActual + 1e-9)

/-- The weighted raw distance sum of `calculate_combined_score`
(post, lines 39-46), before squashing. -/
noncomputable def combined_raw (prediction actual : StatVec) (w : WeightSet) (p : ℝ) : ℝ :=
  calculate_euclidean_distance prediction actual * w.Euclidean +
  calculate_manhattan_distance prediction actual * w.Manhattan +
  calculate_minkowski_distance prediction actual p * w.Minkowski +
  (1 - calculate_cosine_similarity prediction actual) * w.Cosine

/-- `calculate_combined_score` (post, lines 32-50): squash the weighted raw
distance sum to `1 / (1 + raw)`. -/
noncomputable def calculate_combined_score (prediction actual : StatVec) (w : WeightSet)
    (p : ℝ) : ℝ :=
  1 / (1 + combined_raw prediction actual w p)

/-- Per-user average combined score (post, lines 56-68): average over the
predicted players that appear in `actual`; 0 when none do. -/
noncomputable def user_score (user_prediction : Dict StatVec) (actual : Dict StatVec)
    (w : WeightSet) (p : ℝ) : ℝ :=
  let scored := user_prediction.keys.filter (fun player => player ∈ actual.keys)
  let total : ℝ := ∑ player ∈ scored,
    calculate_combined_score (user_prediction.val player) (actual.val player) w p
  if 0 < scored.card then total / scored.card else 0

/-- `total_budget` (post, line 70): sum of all investment values. -/
noncomputable def total_budget (investments : Dict ℝ) : ℝ :=
  ∑ k ∈ investments.keys, investments.val k

/-- `weighted_scores` (post, lines 72-75): user score times
`investments.get(user, 0)`. -/
noncomputable def weighted_scores (predictions : Dict (Dict StatVec)) (actual : Dict StatVec)
    (investments : Dict ℝ) (w : WeightSet) (p : ℝ) : String → ℝ :=
  fun user => user_score (predictions.val user) actual w p * investments.get user

/-- `total_weighted_score` (post, line 77). -/
noncomputable def total_weighted_score (predictions : Dict (Dict StatVec))
    (actual : Dict StatVec) (investments : Dict ℝ) (w : WeightSet) (p : ℝ) : ℝ :=
  ∑ user ∈ predictions.keys, weighted_scores predictions actual investments w p user

/-- `reward_weights` (post, lines 79-86): equal split `1/len(predictions)`
when the total weighted score is 0, proportional shares otherwise. -/
noncomputable def reward_weights (predictions : Dict (Dict StatVec)) (actual : Dict StatVec)
    (investments : Dict ℝ) (w : WeightSet) (p : ℝ) : String → ℝ :=
  if total_weighted_score predictions actual investments w p = 0 then
    fun _ => 1 / (predictions.keys.card : ℝ)
  else
    fun user => weighted_scores predictions actual investments w p user /
      total_weighted_score predictions actual investments w p

/-- `calculate_rewards` (post, lines 52-93): the reward dict, keyed by the
users present in `predictions`. -/
noncomputable def calculate_rewards (predictions : Dict (Dict StatVec)) (actual : Dict StatVec)
    (investments : Dict ℝ) (w : WeightSet) (p : ℝ) : Dict ℝ :=
  ⟨predictions.keys,
   fun user => reward_weights predictions actual investments w p user * total_budget investments⟩

/-- Python's `sum(d.values())`. -/
noncomputable def sum_values (d : Dict ℝ) : ℝ :=
  ∑ k ∈ d.keys, d.val k

/-- The player-statistics record built by `fetch_player_stats`
(pre, lines 16-26): integer counts and real rates. -/
structure PlayerStats where
  runs : ℤ
  balls : ℤ
  fours : ℤ
  sixes : ℤ
  average : ℝ
  strikeRate : ℝ
  «matches» : ℤ

/-- `calculate_cosine_similarity` of the pre-reward calculator
(pre, lines 32-44): 0.7 on an empty `actual` dict, otherwise the epsilon-guarded
cosine over the union of keys, rescaled by `0.5 + raw * 0.5`.  Unlike the
post-reward version it has no identical-mappings short-circuit. -/
noncomputable def pre_cosine_similarity (prediction actual : StatVec) : ℝ :=
  if actual.keys = ∅ then 0.7
  else
    let allKeys := prediction.keys ∪ actual.keys
    let dotProduct := ∑ k ∈ allKeys, prediction.get k * actual.get k
    let magnitudePred := Real.sqrt (∑ k ∈ allKeys, prediction.get k ^ 2)
    let magnitudeActual := Real.sqrt (∑ k ∈ allKeys, actual.get k ^ 2)
    let rawSimilarity := dotProduct / (magnitudePred * magnitudeActual + 1e-9)
    0.5 + rawSimilarity * 0.5

/-- The per-match normalisation dict of `calculate_multiplier`
(pre, lines 51-58): runs/balls/fours/sixes divided by `max(1, matches)`. -/
noncomputable def normalized_stats (s : PlayerStats) : StatVec :=
  ⟨{"runs", "balls", "fours", "sixes"},
   fun k =>
     if k = "runs" then (s.runs : ℝ) / (max 1 s.«matches» : ℤ)
     else if k = "balls" then (s.balls : ℝ) / (max 1 s.«matches» : ℤ)
     else if k = "fours" then (s.fours : ℝ) / (max 1 s.«matches» : ℤ)
     else if k = "sixes" then (s.sixes : ℝ) / (max 1 s.«matches» : ℤ)
     else 0⟩

/-- `calculate_multiplier` (pre, lines 46-70): default 1.5 when stats are
absent, otherwise `min(3, max(1, 1 + similarity * consistency))` with
`consistency = min(1, max(0.5, (average/50 + strikeRate/150)/2))`. -/
noncomputable def calculate_multiplier (prediction : StatVec)
    (player_stats : Option PlayerStats) : ℝ :=
  match player_stats with
  | none => 1.5
  | some s =>
    let similarity := pre_cosine_similarity prediction (normalized_stats s)
    let consistency := min 1 (max 0.5 ((s.average / 50 + s.strikeRate / 150) / 2))
    min 3 (max 1 (1 + similarity * consistency))

/-- Python's `round(x, 2)`: round to two decimal places. -/
noncomputable def round2 (x : ℝ) : ℝ :=
  ((round (x * 100) : ℤ) : ℝ) / 100

/-- `estimated_return` as computed at pre, line 97:
`round(bet_amount * multiplier, 2)`. -/
noncomputable def handler_estimated_return (prediction : StatVec) (bet_amount : ℝ)
    (player_stats : Option PlayerStats) : ℝ :=
  round2 (bet_amount * calculate_multiplier prediction player_stats)

/-- The `stats_used` object of the success body (pre, lines 106-111); the
per-match fields divide by the raw `matches` value. -/
structure StatsUsed where
  runs_per_match : ℝ
  balls_per_match : ℝ
  average : ℝ
  strikeRate : ℝ

/-- The parts of the success body that depend on the computation
(pre, lines 99-113). -/
structure OkBody where
  estimated_return : ℝ
  multiplier : ℝ
  stats_used : Option StatsUsed

/-- Outcome of the pre-reward `lambda_handler` after input validation. -/
inductive PreResponse where
  | ok (body : OkBody)
  | internalError

/-- The computational core of the pre-reward `lambda_handler`
(pre, lines 94-113), after input validation, taking the outcome of
`fetch_player_stats` as an argument.  When stats are present the success body
divides `runs` and `balls` by the raw `matches`; Python raises
`ZeroDivisionError` there when `matches = 0`, which the `except` clause turns
into a 500 response (`internalError`). -/
noncomputable def lambda_handler_core (prediction : StatVec) (bet_amount : ℝ)
    (player_stats : Option PlayerStats) : PreResponse :=
  let m := calculate_multiplier prediction player_stats
  let est := handler_estimated_return prediction bet_amount player_stats
  match player_stats with
  | none => .ok ⟨est, round2 m, none⟩
  | some s =>
    if s.«matches» = 0 then .internalError
    else .ok ⟨est, round2 m,
      some ⟨(s.runs : ℝ) / (s.«matches» : ℝ), (s.balls : ℝ) / (s.«matches» : ℝ),
            s.average, s.strikeRate⟩⟩

/-- The default weight set of the post-reward handler (post, line 108). -/
noncomputable def default_weights : WeightSet :=
  ⟨0.4, 0.3, 0.2, 0.1⟩

/-! ### Sample inputs used by witnesses and counterexamples -/

/-- A one-key statistic vector. -/
noncomputable def vOne : StatVec := ⟨{"runs"}, fun _ => 1⟩

/-- A prediction set with one user who predicted no players. -/
noncomputable def predsW : Dict (Dict StatVec) :=
  ⟨{"alice"}, fun _ => ⟨∅, fun _ => ⟨∅, fun _ => 0⟩⟩⟩

/-- An empty prediction set. -/
noncomputable def predsEmpty : Dict (Dict StatVec) :=
  ⟨∅, fun _ => ⟨∅, fun _ => ⟨∅, fun _ => 0⟩⟩⟩

/-- An empty actual-outcomes mapping. -/
noncomputable def actualW : Dict StatVec := ⟨∅, fun _ => ⟨∅, fun _ => 0⟩⟩

/-- A single investment of 100 by a user named in `predsW`. -/
noncomputable def invW : Dict ℝ := ⟨{"alice"}, fun _ => 100⟩

/-- Sample prediction for the distance asymmetry witness. -/
noncomputable def predK : StatVec := ⟨{"runs"}, fun _ => 10⟩

/-- Sample actual outcome with only the prediction's key. -/
noncomputable def actK1 : StatVec := ⟨{"runs"}, fun _ => 7⟩

/-- Sample actual outcome agreeing with `actK1` on the prediction's key but
carrying an extra key. -/
noncomputable def actK2 : StatVec :=
  ⟨{"runs", "balls"}, fun k => if k = "runs" then 7 else 99⟩

/-- Player statistics with `matches = 0`. -/
noncomputable def statsZeroMatches : PlayerStats :=
  ⟨10, 20, 1, 1, 25, 120, 0⟩

/-! ### Helper lemmas -/

lemma euclidean_nonneg (prediction actual : StatVec) :
    0 ≤ calculate_euclidean_distance prediction actual := by
  unfold calculate_euclidean_distance
  exact Real.sqrt_nonneg _

lemma manhattan_nonneg (prediction actual : StatVec) :
    0 ≤ calculate_manhattan_distance prediction actual := by
  unfold calculate_manhattan_distance
  exact Finset.sum_nonneg fun k _ => abs_nonneg _

lemma minkowski_nonneg (prediction actual : StatVec) (p : ℝ) :
    0 ≤ calculate_minkowski_distance prediction actual p := by
  unfold calculate_minkowski_distance
  exact Real.rpow_nonneg
    (Finset.sum_nonneg fun k _ => Real.rpow_nonneg (abs_nonneg _) _) _

lemma cosine_le_one (prediction actual : StatVec) :
    calculate_cosine_similarity prediction actual ≤ 1 := by
  unfold calculate_cosine_similarity
  split
  · exact le_refl 1
  · dsimp only
    set s := prediction.keys ∪ actual.keys with hs
    have hcs := Real.sum_mul_le_sqrt_mul_sqrt s
      (fun k => prediction.get k) (fun k => actual.get k)
    have hmm : 0 ≤ Real.sqrt (∑ k ∈ s, prediction.get k ^ 2) *
        Real.sqrt (∑ k ∈ s, actual.get k ^ 2) :=
      mul_nonneg (Real.sqrt_nonneg _) (Real.sqrt_nonneg _)
    have heps : (0 : ℝ) < 1e-9 := by norm_num
    rw [div_le_one (by linarith)]
    calc (∑ k ∈ s, prediction.get k * actual.get k)
        ≤ Real.sqrt (∑ k ∈ s, prediction.get k ^ 2) *
            Real.sqrt (∑ k ∈ s, actual.get k ^ 2) := hcs
      _ ≤ Real.sqrt (∑ k ∈ s, prediction.get k ^ 2) *
            Real.sqrt (∑ k ∈ s, actual.get k ^ 2) + 1e-9 := by linarith

lemma combined_raw_nonneg (prediction actual : StatVec) (w : WeightSet) (p : ℝ)
    (hE : 0 ≤ w.Euclidean) (hM : 0 ≤ w.Manhattan) (hK : 0 ≤ w.Minkowski)
    (hC : 0 ≤ w.Cosine) :
    0 ≤ combined_raw prediction actual w p := by
  have h1 := euclidean_nonneg prediction actual
  have h2 := manhattan_nonneg prediction actual
  have h3 := minkowski_nonneg prediction actual p
  have h4 := cosine_le_one prediction actual
  have h4' : 0 ≤ 1 - calculate_cosine_similarity prediction actual := by linarith
  unfold combined_raw
  exact add_nonneg (add_nonneg (add_nonneg (mul_nonneg h1 hE) (mul_nonneg h2 hM))
    (mul_nonneg h3 hK)) (mul_nonneg h4' hC)

lemma sum_rewards_eq (predictions : Dict (Dict StatVec)) (actual : Dict StatVec)
    (investments : Dict ℝ) (w : WeightSet) (p : ℝ) (h : predictions.keys.Nonempty) :
    sum_values (calculate_rewards predictions actual investments w p) =
      total_budget investments := by
  have hN : (predictions.keys.card : ℝ) ≠ 0 := by
    exact_mod_cast h.card_pos.ne'
  unfold sum_values calculate_rewards reward_weights
  dsimp only
  by_cases hT : total_weighted_score predictions actual investments w p = 0
  · rw [if_pos hT]
    rw [Finset.sum_const, nsmul_eq_mul]
    field_simp
  · rw [if_neg hT]
    rw [← Finset.sum_mul, ← Finset.sum_div]
    have hsum : (∑ user ∈ predictions.keys,
        weighted_scores predictions actual investments w p user) =
        total_weighted_score predictions actual investments w p := rfl
    rw [hsum, div_self hT, one_mul]

/-! ### Claim theorems -/

/-- C1: for every non-empty predictions mapping, actual-outcomes mapping,
investments mapping with non-negative stakes, non-negative weight set and
p > 0, the sum of all rewards returned by `calculate_rewards` equals the sum
of all investment values within 1e-6 absolute tolerance. -/
theorem C1_rewards_sum_to_budget (predictions : Dict (Dict StatVec))
    (actual : Dict StatVec) (investments : Dict ℝ) (w : WeightSet) (p : ℝ)
    (hne : predictions.keys.Nonempty)
    (hinv : ∀ k ∈ investments.keys, 0 ≤ investments.val k)
    (hE : 0 ≤ w.Euclidean) (hM : 0 ≤ w.Manhattan) (hK : 0 ≤ w.Minkowski)
    (hC : 0 ≤ w.Cosine) (hp : 0 < p) :
    |sum_values (calculate_rewards predictions actual investments w p) -
      sum_values investments| ≤ 1e-6 := by
  have hsum := sum_rewards_eq predictions actual investments w p hne
  have hb : total_budget investments = sum_values investments := rfl
  rw [hsum, hb, sub_self, abs_zero]
  norm_num

/-- Witness for C1 at a concrete input: one predicting user, one investment
of 100, default weights, p = 3. -/
theorem C1_rewards_sum_to_budget_witness :
    predsW.keys.Nonempty ∧ (∀ k ∈ invW.keys, 0 ≤ invW.val k) ∧
    (0 : ℝ) < 3 ∧
    |sum_values (calculate_rewards predsW actualW invW default_weights 3) -
      sum_values invW| ≤ 1e-6 := by
  have h1 : predsW.keys.Nonempty := ⟨"alice", by simp [predsW]⟩
  have h2 : ∀ k ∈ invW.keys, 0 ≤ invW.val k := by
    intro k hk
    simp [invW]
  exact ⟨h1, h2, by norm_num,
    C1_rewards_sum_to_budget predsW actualW invW default_weights 3 h1 h2
      (by norm_num [default_weights]) (by norm_num [default_weights])
      (by norm_num [default_weights]) (by norm_num [default_weights]) (by norm_num)⟩

/-- C5: for every non-empty predictions mapping and any investments mapping,
the key set of the returned reward dict is exactly the user set of
`predictions`, and the distributed total equals the sum of ALL investment
values, including those of users not present in `predictions`. -/
theorem C5_budget_includes_all_investments (predictions : Dict (Dict StatVec))
    (actual : Dict StatVec) (investments : Dict ℝ) (w : WeightSet) (p : ℝ)
    (hne : predictions.keys.Nonempty) :
    (calculate_rewards predictions actual investments w p).keys = predictions.keys ∧
    sum_values (calculate_rewards predictions actual investments w p) =
      sum_values investments :=
  ⟨rfl, (sum_rewards_eq predictions actual investments w p hne).trans rfl⟩

/-- Witness for C5: the sole predicting user receives the whole budget, and
the reward keys are exactly the prediction keys. -/
theorem C5_budget_includes_all_investments_witness :
    predsW.keys.Nonempty ∧
    ((calculate_rewards predsW actualW invW default_weights 3).keys = predsW.keys ∧
     sum_values (calculate_rewards predsW actualW invW default_weights 3) =
       sum_values invW) := by
  have h1 : predsW.keys.Nonempty := ⟨"alice", by simp [predsW]⟩
  exact ⟨h1, C5_budget_includes_all_investments predsW actualW invW default_weights 3 h1⟩

/-- C6: when the total weighted score is exactly 0, `calculate_rewards`
returns an equal split over exactly the users present in `predictions`:
each receives `totalBudget / N`. -/
theorem C6_equal_split_on_zero_scores (predictions : Dict (Dict StatVec))
    (actual : Dict StatVec) (investments : Dict ℝ) (w : WeightSet) (p : ℝ)
    (hne : predictions.keys.Nonempty)
    (hT : total_weighted_score predictions actual investments w p = 0) :
    (calculate_rewards predictions actual investments w p).keys = predictions.keys ∧
    ∀ user ∈ predictions.keys,
      (calculate_rewards predictions actual investments w p).val user =
        total_budget investments / (predictions.keys.card : ℝ) := by
  refine ⟨rfl, fun user _ => ?_⟩
  unfold calculate_rewards reward_weights
  dsimp only
  rw [if_pos hT, one_div_mul_eq_div]

/-- Witness for C6: a user who predicted no players has score 0, so the
total weighted score is 0 and the user receives the entire budget 100/1. -/
theorem C6_equal_split_on_zero_scores_witness :
    predsW.keys.Nonempty ∧
    total_weighted_score predsW actualW invW default_weights 3 = 0 ∧
    ((calculate_rewards predsW actualW invW default_weights 3).keys = predsW.keys ∧
     ∀ user ∈ predsW.keys,
       (calculate_rewards predsW actualW invW default_weights 3).val user =
         total_budget invW / (predsW.keys.card : ℝ)) := by
  have h1 : predsW.keys.Nonempty := ⟨"alice", by simp [predsW]⟩
  have hT : total_weighted_score predsW actualW invW default_weights 3 = 0 := by
    unfold total_weighted_score weighted_scores user_score
    simp [predsW]
  exact ⟨h1, hT,
    C6_equal_split_on_zero_scores predsW actualW invW default_weights 3 h1 hT⟩

/-- C10 counterexample: on the empty predictions mapping `calculate_rewards`
does return a reward distribution — the empty one — because the equal-split
dict comprehension iterates over no users and `1/len(predictions)` is never
evaluated; no division-by-zero failure occurs. -/
theorem C10_counterexample :
    (calculate_rewards predsEmpty actualW invW default_weights 3).keys = ∅ ∧
    sum_values (calculate_rewards predsEmpty actualW invW default_weights 3) = 0 := by
  constructor
  · rfl
  · unfold sum_values calculate_rewards
    dsimp only
    rw [show predsEmpty.keys = ∅ from rfl, Finset.sum_empty]

/-- C10 amended: for an empty predictions mapping, `calculate_rewards`
succeeds and returns the empty reward distribution, distributing no budget. -/
theorem C10_empty_predictions (predictions : Dict (Dict StatVec))
    (actual : Dict StatVec) (investments : Dict ℝ) (w : WeightSet) (p : ℝ)
    (h : predictions.keys = ∅) :
    (calculate_rewards predictions actual investments w p).keys = ∅ ∧
    sum_values (calculate_rewards predictions actual investments w p) = 0 := by
  refine ⟨h, ?_⟩
  unfold sum_values calculate_rewards
  dsimp only
  rw [h, Finset.sum_empty]

/-- Witness for the amended C10 at the empty prediction set. -/
theorem C10_empty_predictions_witness :
    predsEmpty.keys = ∅ ∧
    ((calculate_rewards predsEmpty actualW invW default_weights 3).keys = ∅ ∧
     sum_values (calculate_rewards predsEmpty actualW invW default_weights 3) = 0) :=
  ⟨rfl, C10_empty_predictions predsEmpty actualW invW default_weights 3 rfl⟩

/-- C2: for non-negative weights and p > 0 the combined score lies in (0, 1],
and it equals 1 exactly when the weighted raw distance sum is 0. -/
theorem C2_combined_score_bounds (prediction actual : StatVec) (w : WeightSet)
    (p : ℝ) (hE : 0 ≤ w.Euclidean) (hM : 0 ≤ w.Manhattan) (hK : 0 ≤ w.Minkowski)
    (hC : 0 ≤ w.Cosine) (hp : 0 < p) :
    0 < calculate_combined_score prediction actual w p ∧
    calculate_combined_score prediction actual w p ≤ 1 ∧
    (calculate_combined_score prediction actual w p = 1 ↔
      combined_raw prediction actual w p = 0) := by
  have hraw := combined_raw_nonneg prediction actual w p hE hM hK hC
  have hpos : (0 : ℝ) < 1 + combined_raw prediction actual w p := by linarith
  unfold calculate_combined_score
  refine ⟨one_div_pos.mpr hpos, ?_, ?_⟩
  · rw [div_le_one hpos]
    linarith
  · rw [div_eq_one_iff_eq hpos.ne']
    constructor
    · intro h
      linarith
    · intro h
      rw [h, add_zero]

/-- Witness for C2 at a perfect match: prediction = actual on one key,
default weights, p = 3; the score is in (0, 1] and the iff holds. -/
theorem C2_combined_score_bounds_witness :
    (0 : ℝ) ≤ 0.4 ∧ (0 : ℝ) < 3 ∧
    (0 < calculate_combined_score vOne vOne default_weights 3 ∧
     calculate_combined_score vOne vOne default_weights 3 ≤ 1 ∧
     (calculate_combined_score vOne vOne default_weights 3 = 1 ↔
       combined_raw vOne vOne default_weights 3 = 0)) :=
  ⟨by norm_num, by norm_num,
   C2_combined_score_bounds vOne vOne default_weights 3
     (by norm_num [default_weights]) (by norm_num [default_weights])
     (by norm_num [default_weights]) (by norm_num [default_weights]) (by norm_num)⟩

/-- C7 counterexample: the multiplier-path cosine similarity has no
identical-mappings short-circuit; on the vector {"runs": 1} paired with
itself it returns 0.5 + 0.5/(1 + 1e-9, which is strictly less than 1. -/
theorem C7_counterexample : pre_cosine_similarity vOne vOne ≠ 1 := by
  unfold pre_cosine_similarity vOne
  rw [if_neg (by decide)]
  dsimp only
  rw [Finset.union_self]
  simp only [Finset.sum_singleton, Dict.get, Finset.mem_singleton_self, if_true]
  norm_num [Real.sqrt_one]

/-- C7 amended: the reward-path cosine similarity returns exactly 1.0 on any
vector paired with itself, via the identical-mappings short-circuit. -/
theorem C7_post_cosine_self (v : StatVec) :
    calculate_cosine_similarity v v = 1 := by
  unfold calculate_cosine_similarity
  rw [if_pos ⟨rfl, fun k _ => rfl⟩]

/-- C9: Euclidean, Manhattan and Minkowski distances iterate only over the
prediction's keys: two actual vectors agreeing there (missing keys read as 0)
yield identical distances, and each distance equals its
prediction-keys-only formula. -/
theorem C9_distances_use_prediction_keys (pred a1 a2 : StatVec) (p : ℝ)
    (h : ∀ k ∈ pred.keys, a1.get k = a2.get k) :
    calculate_euclidean_distance pred a1 = calculate_euclidean_distance pred a2 ∧
    calculate_manhattan_distance pred a1 = calculate_manhattan_distance pred a2 ∧
    calculate_minkowski_distance pred a1 p = calculate_minkowski_distance pred a2 p ∧
    calculate_euclidean_distance pred a1 =
      Real.sqrt (∑ k ∈ pred.keys, (pred.val k - a1.get k) ^ 2) ∧
    calculate_manhattan_distance pred a1 =
      (∑ k ∈ pred.keys, |pred.val k - a1.get k|) ∧
    calculate_minkowski_distance pred a1 p =
      Real.rpow (∑ k ∈ pred.keys, Real.rpow |pred.val k - a1.get k| p) (1 / p) := by
  refine ⟨?_, ?_, ?_, rfl, rfl, rfl⟩
  · unfold calculate_euclidean_distance
    congr 1
    exact Finset.sum_congr rfl fun k hk => by rw [h k hk]
  · unfold calculate_manhattan_distance
    exact Finset.sum_congr rfl fun k hk => by rw [h k hk]
  · unfold calculate_minkowski_distance
    congr 1
    exact Finset.sum_congr rfl fun k hk => by rw [h k hk]

/-- Witness for C9: `actK2` carries an extra key "balls" that `actK1` lacks,
yet all three prediction-keyed distances coincide. -/
theorem C9_distances_use_prediction_keys_witness :
    (∀ k ∈ predK.keys, actK1.get k = actK2.get k) ∧
    (calculate_euclidean_distance predK actK1 = calculate_euclidean_distance predK actK2 ∧
     calculate_manhattan_distance predK actK1 = calculate_manhattan_distance predK actK2 ∧
     calculate_minkowski_distance predK actK1 3 = calculate_minkowski_distance predK actK2 3 ∧
     calculate_euclidean_distance predK actK1 =
       Real.sqrt (∑ k ∈ predK.keys, (predK.val k - actK1.get k) ^ 2) ∧
     calculate_manhattan_distance predK actK1 =
       (∑ k ∈ predK.keys, |predK.val k - actK1.get k|) ∧
     calculate_minkowski_distance predK actK1 3 =
       Real.rpow (∑ k ∈ predK.keys, Real.rpow |predK.val k - actK1.get k| 3) (1 / 3)) := by
  have h : ∀ k ∈ predK.keys, actK1.get k = actK2.get k := by
    intro k hk
    have hk' : k = "runs" := by
      simpa [predK] using hk
    subst hk'
    simp [actK1, actK2, Dict.get]
  exact ⟨h, C9_distances_use_prediction_keys predK actK1 actK2 3 h⟩

/-- C3 failing input: with fetched player statistics having `matches = 0`,
the handler's `stats_used` fields divide `runs` and `balls` by the raw
`matches` value (not by `max(1, matches)`, which only guards the multiplier
computation), so Python raises `ZeroDivisionError` and the request ends in a
500 response instead of the specified 200. -/
theorem C3_zero_matches_yields_500 :
    lambda_handler_core vOne 100 (some statsZeroMatches) =
      PreResponse.internalError := by
  unfold lambda_handler_core statsZeroMatches
  dsimp only
  rw [if_pos rfl]

/-- C4: with absent player statistics, `calculate_multiplier` returns exactly
1.5 for any prediction, and the handler succeeds with
`estimated_return = round(bet_amount * 1.5, 2)`, multiplier 1.5 and null
`stats_used` — the absence is not surfaced as an error. -/
theorem C4_absent_stats_default (prediction : StatVec) (bet_amount : ℝ) :
    calculate_multiplier prediction none = 1.5 ∧
    lambda_handler_core prediction bet_amount none =
      PreResponse.ok ⟨round2 (bet_amount * 1.5), 1.5, none⟩ := by
  refine ⟨rfl, ?_⟩
  unfold lambda_handler_core handler_estimated_return
  dsimp only
  have hm : calculate_multiplier prediction none = 1.5 := rfl
  rw [hm]
  have h15 : round2 1.5 = 1.5 := by
    unfold round2
    have h150 : (1.5 * 100 : ℝ) = ((150 : ℤ) : ℝ) := by norm_num
    rw [h150, round_intCast]
    norm_num
  rw [h15]

/-- C8: with present player statistics, the multiplier is clamped to
[1.0, 3.0], and the handler's estimated return is
`round(bet_amount * multiplier, 2)`. -/
theorem C8_multiplier_clamped (prediction : StatVec) (s : PlayerStats)
    (bet_amount : ℝ) :
    1 ≤ calculate_multiplier prediction (some s) ∧
    calculate_multiplier prediction (some s) ≤ 3 ∧
    handler_estimated_return prediction bet_amount (some s) =
      round2 (bet_amount * calculate_multiplier prediction (some s)) := by
  refine ⟨?_, ?_, rfl⟩
  · unfold calculate_multiplier
    dsimp only
    exact le_min (by norm_num) (le_max_left _ _)
  · unfold calculate_multiplier
    dsimp only
    exact min_le_left _ _
